import Mathlib

/-!
Verification of the real-time coordination subsystem of the agent-kanban
project-management application: the autopilot control loop
(`routers/autopilot.py`), the task-assignment endpoints (`routers/tasks.py`)
and the websocket handlers (`routers/websockets.py`), together with the
connection registry they delegate to.

The embedding is shallow: Python functions become Lean functions, the
relational store becomes an explicit `Storage` value threaded through the
operations, and exceptions become explicit error values.  Fallible external
calls (the SQLAlchemy queries and the commit) are parametrised by a `Faults`
record so that the loop's error handling can be stated for every failure
pattern.
-/

namespace AgentKanban

/-- Task status enumeration (`models.TaskStatus`; the model module only
declares the members used by the routers: pending / in-progress / completed,
as in spec §3). -/
inductive TaskStatus where
  | pending
  | in_progress
  | completed
deriving DecidableEq, Repr

/-- An entity (human or agent) row, restricted to the columns the verified
routers read: primary key and display name. -/
structure Entity where
  id : Int
  name : String
deriving DecidableEq, Repr

/-- A task row as consumed by the routers: primary key, title, status,
project id, and the assignee collection.  SQLAlchemy hands the assignee
relationship to the routers as a list of `Entity` ORM objects; within one
session the identity map makes object equality coincide with primary-key
equality, so the list is embedded as the list of assignee entity ids. -/
structure Task where
  id : Int
  title : String
  status : TaskStatus
  project_id : Int
  assignees : List Int
deriving DecidableEq, Repr

/-- An audit log row (`models.TaskLog`) with the columns the routers write:
owning task, human-readable message, and kind tag. -/
structure TaskLog where
  task_id : Int
  message : String
  log_type : String
deriving DecidableEq, Repr

/-- The transactional store, restricted to the tables the verified code
touches.  Lists keep the database's stable row order. -/
structure Storage where
  entities : List Entity
  tasks : List Task
  logs : List TaskLog
deriving DecidableEq, Repr

/-- The `AutopilotConfig` model (routers/autopilot.py): `enabled: bool = False`,
`manager_id: Optional[int] = None`. -/
structure AutopilotConfig where
  enabled : Bool
  manager_id : Option Int
deriving DecidableEq, Repr

/-- The process-start configuration: pydantic defaults `enabled=False`,
`manager_id=None`. -/
def AutopilotConfig.initial : AutopilotConfig := ⟨false, none⟩

/-- Python truthiness of `current_config.manager_id` as tested by
`if current_config.enabled and current_config.manager_id:`: `None` and `0`
are falsy, every other integer is truthy. -/
def managerIdTruthy : Option Int → Bool
  | none => false
  | some v => v != 0

/-- The query `select(Entity).filter(Entity.id == eid)` followed by
`scalar_one_or_none()`: the unique row with that primary key, or `none`. -/
def getEntity (s : Storage) (eid : Int) : Option Entity :=
  s.entities.find? (fun e => e.id == eid)

/-- The query `select(Task).filter(Task.status == TaskStatus.PENDING)` with the
assignees eagerly loaded. -/
def pendingTasks (s : Storage) : List Task :=
  s.tasks.filter (fun t => t.status == TaskStatus.pending)

/-- The tasks the autopilot scan loop acts on: pending tasks whose assignee
collection is empty (`if not task.assignees:`). -/
def unassignedPending (s : Storage) : List Task :=
  (pendingTasks s).filter (fun t => t.assignees.isEmpty)

/-- The audit message built by the loop:
`f"Autopilot: Manager {manager_entity.name} self-assigned task '{task.title}'"`. -/
def autopilotMsg (mgr : Entity) (t : Task) : String :=
  "Autopilot: Manager " ++ mgr.name ++ " self-assigned task '" ++ t.title ++ "'"

/-- The in-session mutation of one scanned task: a pending task with an
empty assignee list gets the manager appended
(`task.assignees.append(manager_entity)`); every other task is untouched. -/
def autopilotAssign (mid : Int) (t : Task) : Task :=
  if t.status == TaskStatus.pending && t.assignees.isEmpty then
    { t with assignees := t.assignees ++ [mid] }
  else t

/-- The effect of `await session.commit()` at the end of a processing pass:
every unassigned pending task now carries the manager, and one `TaskLog`
row per processed task (in scan order) is appended. -/
def commitAutopilot (mgr : Entity) (s : Storage) : Storage :=
  { s with
    tasks := s.tasks.map (autopilotAssign mgr.id)
    logs := s.logs ++ (unassignedPending s).map
      (fun t => TaskLog.mk t.id (autopilotMsg mgr t) "action") }

/-- Python exceptions observable in the loop body. -/
inductive PyErr where
  /-- `NameError: name '...' is not defined`. -/
  | nameError (n : String)
  /-- an exception raised by the storage collaborator. -/
  | storageError
deriving DecidableEq, Repr

/-- Injected external failures for the awaited storage calls of one
iteration: the manager query, the task query, and the commit. -/
structure Faults where
  failGetEntity : Bool
  failListTasks : Bool
  failCommit : Bool
deriving DecidableEq, Repr

/-- No external failure. -/
def noFaults : Faults := ⟨false, false, false⟩

/-- An iteration in which the pending-task query (step 3) raises. -/
def scanFailure : Faults := ⟨false, true, false⟩

/-- Observable operations of one iteration, in program order. -/
inductive Event where
  /-- the manager-entity query was issued. -/
  | lookup (eid : Int)
  /-- the pending-task query was issued. -/
  | scan
  /-- `session.commit()` was issued. -/
  | commit
  /-- `manager.broadcast_to_project` was called for a task. -/
  | broadcast (task_id : Int) (project_id : Int)
deriving DecidableEq, Repr

/-- Wire payload of a `task_update`/`log` notification (spec §6). -/
structure NotificationPayload where
  task_id : Int
  type : String
  message : String
  log_type : String
  timestamp : String
deriving DecidableEq, Repr

/-- A fan-out notification: type tag, payload, optional target project
(spec §3; `create_notification` lives in the websocket manager module). -/
structure Notification where
  ntype : String
  payload : NotificationPayload
  project_id : Option Int
deriving DecidableEq, Repr

/-- Result of the `try`-block body of one iteration (steps 1–6, before any
sleeping): the storage as left behind, the notifications actually handed to
the broadcaster, the operations performed, and the exception that escaped
the body, if any. -/
structure TryOutcome where
  storage : Storage
  sent : List Notification
  events : List Event
  err : Option PyErr
deriving DecidableEq, Repr

/-- Steps 2–6 for an enabled configuration with a truthy manager id `mid`.

The broadcast phase is unreachable in the source: after the commit, the
first trip through the notification loop evaluates the dict literal
`{..., "timestamp": datetime.utcnow().isoformat()}` (autopilot.py line 88),
and `routers/autopilot.py` binds no name `datetime` (its imports are at
lines 1–8 and 31–37), so Python raises `NameError` before
`create_notification` or `broadcast_to_project` is ever called.  The commit
has already persisted the assignments and log rows at that point. -/
def iterEnabled (mid : Int) (f : Faults) (s : Storage) : TryOutcome :=
  if f.failGetEntity then
    ⟨s, [], [Event.lookup mid], some PyErr.storageError⟩
  else
    match getEntity s mid with
    | none => ⟨s, [], [Event.lookup mid], none⟩
    | some mgr =>
      if f.failListTasks then
        ⟨s, [], [Event.lookup mid, Event.scan], some PyErr.storageError⟩
      else if (unassignedPending s).isEmpty then
        ⟨s, [], [Event.lookup mid, Event.scan], none⟩
      else if f.failCommit then
        ⟨s, [], [Event.lookup mid, Event.scan, Event.commit],
          some PyErr.storageError⟩
      else
        ⟨commitAutopilot mgr s, [],
          [Event.lookup mid, Event.scan, Event.commit],
          some (PyErr.nameError "datetime")⟩

/-- The body of the `try` block of `run_autopilot_loop` (steps 1–6): the
no-op fast path when the config is disabled or the manager id is falsy,
otherwise `iterEnabled` on the configured manager id. -/
def iterBody (cfg : AutopilotConfig) (f : Faults) (s : Storage) : TryOutcome :=
  if cfg.enabled && managerIdTruthy cfg.manager_id then
    iterEnabled (cfg.manager_id.getD 0) f s
  else
    ⟨s, [], [], none⟩

/-- One full iteration of `run_autopilot_loop` including its error
handling: a body that returns normally reaches the `await asyncio.sleep(5)`
at the end of the `try`; a body that raises is caught by
`except Exception`, printed, and the handler sleeps five seconds itself.
Either way the iteration ends in a sleep. -/
structure IterResult where
  storage : Storage
  sent : List Notification
  events : List Event
  caught : Option PyErr
  slept : Bool
deriving DecidableEq, Repr

/-- One trip around the `while True:` loop. -/
def runAutopilotStep (cfg : AutopilotConfig) (f : Faults) (s : Storage) :
    IterResult :=
  match iterBody cfg f s with
  | ⟨st, sent, evs, none⟩ => ⟨st, sent, evs, none, true⟩
  | ⟨st, sent, evs, some e⟩ => ⟨st, sent, evs, some e, true⟩

/-- Accumulated observation of finitely many trips around the loop.  The
configuration is re-read at the top of every iteration, so each entry of
the schedule carries the configuration visible to that iteration together
with the external failures it meets. -/
structure LoopResult where
  storage : Storage
  sent : List Notification
  sleeps : Nat
deriving DecidableEq, Repr

/-- Run the loop for one iteration per schedule entry.  Each iteration
hands the storage it left behind to the next one; the sleep counter adds
one for every iteration that reached a sleep. -/
def runAutopilotLoop (s : Storage) :
    List (AutopilotConfig × Faults) → LoopResult
  | [] => ⟨s, [], 0⟩
  | (cfg, f) :: rest =>
    ⟨(runAutopilotLoop (runAutopilotStep cfg f s).storage rest).storage,
      (runAutopilotStep cfg f s).sent
        ++ (runAutopilotLoop (runAutopilotStep cfg f s).storage rest).sent,
      (if (runAutopilotStep cfg f s).slept then 1 else 0)
        + (runAutopilotLoop (runAutopilotStep cfg f s).storage rest).sleeps⟩

/-! ### Task assignment endpoints (`routers/tasks.py`) -/

instance {ε α : Type} [DecidableEq ε] [DecidableEq α] :
    DecidableEq (Except ε α) := fun x y =>
  match x, y with
  | Except.error a, Except.error b =>
    if h : a = b then Decidable.isTrue (by rw [h])
    else Decidable.isFalse (by simp [h])
  | Except.error _, Except.ok _ => Decidable.isFalse (by simp)
  | Except.ok _, Except.error _ => Decidable.isFalse (by simp)
  | Except.ok a, Except.ok b =>
    if h : a = b then Decidable.isTrue (by rw [h])
    else Decidable.isFalse (by simp [h])

/-- FastAPI error responses raised by the endpoints. -/
inductive HTTPError where
  | notFound (detail : String)
deriving DecidableEq, Repr

/-- The query `select(Task).filter(Task.id == tid)` with assignees loaded, then
`scalar_one_or_none()`. -/
def getTask (s : Storage) (tid : Int) : Option Task :=
  s.tasks.find? (fun t => t.id == tid)

/-- Endpoint `POST /tasks/{task_id}/assign` (`assign_task`): 404 when the task or
the entity is absent; otherwise, when the entity is not yet among the
task's assignees (`if entity not in task.assignees:`, primary-key equality
through the session's identity map), append it and commit; an
already-assigned entity leaves storage untouched.  Returns the (possibly
refreshed) task. -/
def assign_task (s : Storage) (task_id entity_id : Int) :
    Except HTTPError (Storage × Task) :=
  match getTask s task_id with
  | none => Except.error (HTTPError.notFound "Task not found")
  | some task =>
    match getEntity s entity_id with
    | none => Except.error (HTTPError.notFound "Entity not found")
    | some entity =>
      if entity.id ∈ task.assignees then
        Except.ok (s, task)
      else
        let task' := { task with assignees := task.assignees ++ [entity.id] }
        Except.ok
          ({ s with tasks :=
              s.tasks.map (fun u => if u.id == task_id then task' else u) },
            task')

/-- Endpoint `POST /tasks/{task_id}/self-assign` (`self_assign_task`): the handler
body is line-for-line the same as `assign_task` (same queries, same 404
details, same membership check, same append-and-commit). -/
def self_assign_task (s : Storage) (task_id entity_id : Int) :
    Except HTTPError (Storage × Task) :=
  match getTask s task_id with
  | none => Except.error (HTTPError.notFound "Task not found")
  | some task =>
    match getEntity s entity_id with
    | none => Except.error (HTTPError.notFound "Entity not found")
    | some entity =>
      if entity.id ∈ task.assignees then
        Except.ok (s, task)
      else
        let task' := { task with assignees := task.assignees ++ [entity.id] }
        Except.ok
          ({ s with tasks :=
              s.tasks.map (fun u => if u.id == task_id then task' else u) },
            task')

/-! ### Websocket handlers (`routers/websockets.py`) -/

/-- Observable actions a websocket handler performs against the connection
manager and the transport, in program order. -/
inductive WsEvent where
  /-- `manager.connect(websocket, scope)` — `none` is the global scope. -/
  | connect (scope : Option Int)
  /-- `manager.send_personal_message({"type": tag, "message": msg}, ws)`. -/
  | send (tag : String) (msg : String)
  /-- `manager.disconnect(websocket, scope)`. -/
  | disconnect (scope : Option Int)
deriving DecidableEq, Repr

/-- How the receive loop of a handler terminates: the transport closed
(`WebSocketDisconnect`) or some other exception escaped the loop. -/
inductive SessionEnd where
  | closed
  | errored
deriving DecidableEq, Repr

/-- Both `except` arms of each handler unregister the connection from its
scope before the coroutine ends. -/
def wsEnding (scope : Option Int) : SessionEnd → List WsEvent
  | SessionEnd.closed => [WsEvent.disconnect scope]
  | SessionEnd.errored => [WsEvent.disconnect scope]

/-- Handler `websocket_project_updates` (`/ws/projects/{project_id}`): admit the
connection under the project scope, send one `connection` greeting, then
echo each received text frame back verbatim as an `echo` message until the
loop terminates, and unregister. `frames` is the sequence of inbound text
frames received before termination. -/
def websocket_project_updates (project_id : Int) (frames : List String)
    (ending : SessionEnd) : List WsEvent :=
  WsEvent.connect (some project_id)
    :: WsEvent.send "connection" ("Connected to project " ++ toString project_id)
    :: (frames.map (fun d => WsEvent.send "echo" d)
        ++ wsEnding (some project_id) ending)

/-- Handler `websocket_global_updates` (`/ws`): the same shape under the global
scope, with the fixed greeting text. -/
def websocket_global_updates (frames : List String)
    (ending : SessionEnd) : List WsEvent :=
  WsEvent.connect none
    :: WsEvent.send "connection" "Connected to global updates"
    :: (frames.map (fun d => WsEvent.send "echo" d)
        ++ wsEnding none ending)

/-- The message of a `connection`-tagged send, if the event is one. -/
def connectionMsg : WsEvent → Option String
  | WsEvent.send tag m => if tag = "connection" then some m else none
  | _ => none

/-- The message of an `echo`-tagged send, if the event is one. -/
def echoMsg : WsEvent → Option String
  | WsEvent.send tag m => if tag = "echo" then some m else none
  | _ => none

/-! ### Connection registry (spec §4.1) -/

/-- Modelled from the spec: the connection manager module
(`websocket_manager.py`, holding the `ConnectionManager` used by the
routers and its `broadcast_to_project`) is not among the source files; only
its callers are.  Spec §3 and §4.1: the registry state is a mapping from
project scope to the set of connections subscribed to that scope plus a
separate global-scope set, and project events go only to that project's
set.  Connections are opaque transport handles, embedded as identifiers. -/
structure Registry where
  project_conns : List (Int × List Nat)
  global_conns : List Nat
deriving DecidableEq, Repr

/-- The connections currently registered under a project scope. -/
def Registry.scopeConns (r : Registry) (pid : Int) : List Nat :=
  match r.project_conns.find? (fun p => p.1 == pid) with
  | some p => p.2
  | none => []

/-- Modelled from the spec: `BroadcastToProject(n, P)` delivers the
notification to every connection subscribed to scope `P` at call time and
to no other connection; the result lists the deliveries made. -/
def broadcast_to_project (r : Registry) (n : Notification) (pid : Int) :
    List (Nat × Notification) :=
  (r.scopeConns pid).map (fun c => (c, n))

/-! ### Trace predicates -/

/-- Every `broadcast` event of a trace is preceded by a `commit` event:
scanning left to right, a broadcast may only occur once a commit has been
seen. -/
def commitPrecedes (seen : Bool) : List Event → Bool
  | [] => true
  | Event.commit :: rest => commitPrecedes true rest
  | Event.broadcast _ _ :: rest => seen && commitPrecedes seen rest
  | _ :: rest => commitPrecedes seen rest

/-! ### Concrete fixtures -/

/-- A manager entity. -/
def entA : Entity := ⟨1, "Alice"⟩

/-- A pending task of project 7 with no assignee. -/
def taskA : Task := ⟨1, "Fix bug", TaskStatus.pending, 7, []⟩

/-- The task `taskA` after the manager has been appended. -/
def taskA1 : Task := ⟨1, "Fix bug", TaskStatus.pending, 7, [1]⟩

/-- Storage holding the manager and exactly one unassigned pending task. -/
def sA : Storage := ⟨[entA], [taskA], []⟩

/-- Storage `sA` after `taskA` has been assigned to `entA`. -/
def sA1 : Storage := ⟨[entA], [taskA1], []⟩

/-- An enabled configuration pointing at `entA`. -/
def cfgA : AutopilotConfig := ⟨true, some 1⟩

/-- An enabled configuration whose manager id matches no stored entity. -/
def cfgB : AutopilotConfig := ⟨true, some 9⟩

/-- An enabled configuration whose manager id is set to the falsy value 0. -/
def cfgZ : AutopilotConfig := ⟨true, some 0⟩

/-- Storage with no entities and one unassigned pending task. -/
def sB : Storage := ⟨[], [taskA], []⟩

/-- A pending task that already carries an assignee (entity 5). -/
def taskC : Task := ⟨2, "Busy task", TaskStatus.pending, 7, [5]⟩

/-- Storage holding the manager and one pending, already-assigned task. -/
def sC : Storage := ⟨[entA], [taskC], []⟩

/-- A registry with two project scopes and one global connection. -/
def regEx : Registry := ⟨[(1, [10, 11]), (2, [20])], [30]⟩

/-- A sample notification. -/
def notifEx : Notification :=
  ⟨"task_update", ⟨1, "log", "m", "action", "2024-01-01T00:00:00"⟩, some 1⟩

/-! ### Helper lemmas -/

theorem iterEnabled_sent_nil (mid : Int) (f : Faults) (s : Storage) :
    (iterEnabled mid f s).sent = [] := by
  unfold iterEnabled
  split
  · rfl
  · split
    · rfl
    · split
      · rfl
      · split
        · rfl
        · split <;> rfl

theorem iterBody_sent_nil (cfg : AutopilotConfig) (f : Faults) (s : Storage) :
    (iterBody cfg f s).sent = [] := by
  unfold iterBody
  split
  · exact iterEnabled_sent_nil _ _ _
  · rfl

theorem iterEnabled_storage_cases (mid : Int) (f : Faults) (s : Storage) :
    (iterEnabled mid f s).storage = s ∨
      ∃ mgr, getEntity s mid = some mgr ∧
        (iterEnabled mid f s).storage = commitAutopilot mgr s := by
  unfold iterEnabled
  split
  · exact Or.inl rfl
  · split
    · exact Or.inl rfl
    · next mgr heq =>
      split
      · exact Or.inl rfl
      · split
        · exact Or.inl rfl
        · split
          · exact Or.inl rfl
          · exact Or.inr ⟨mgr, heq, rfl⟩

theorem iterBody_storage_cases (cfg : AutopilotConfig) (f : Faults)
    (s : Storage) :
    (iterBody cfg f s).storage = s ∨
      ∃ mgr, getEntity s (cfg.manager_id.getD 0) = some mgr ∧
        (iterBody cfg f s).storage = commitAutopilot mgr s := by
  unfold iterBody
  split
  · exact iterEnabled_storage_cases _ _ _
  · exact Or.inl rfl

theorem iterEnabled_lookup_mem (mid : Int) (f : Faults) (s : Storage) :
    Event.lookup mid ∈ (iterEnabled mid f s).events := by
  unfold iterEnabled
  split
  · simp
  · split
    · simp
    · split
      · simp
      · split
        · simp
        · split <;> simp

theorem iterEnabled_scan_mem (mid : Int) (f : Faults) (s : Storage)
    (hf : f.failGetEntity = false) (mgr : Entity)
    (hg : getEntity s mid = some mgr) :
    Event.scan ∈ (iterEnabled mid f s).events := by
  unfold iterEnabled
  rw [hf, hg]
  simp only [Bool.false_eq_true, if_false]
  split
  · simp
  · split
    · simp
    · split <;> simp

theorem iterEnabled_absent (mid : Int) (f : Faults) (s : Storage)
    (hf : f.failGetEntity = false) (hg : getEntity s mid = none) :
    iterEnabled mid f s = ⟨s, [], [Event.lookup mid], none⟩ := by
  unfold iterEnabled
  rw [hf, hg]
  rfl

theorem iterEnabled_events_cases (mid : Int) (f : Faults) (s : Storage) :
    (iterEnabled mid f s).events = [Event.lookup mid] ∨
    (iterEnabled mid f s).events = [Event.lookup mid, Event.scan] ∨
    (iterEnabled mid f s).events
      = [Event.lookup mid, Event.scan, Event.commit] := by
  unfold iterEnabled
  split
  · exact Or.inl rfl
  · split
    · exact Or.inl rfl
    · split
      · exact Or.inr (Or.inl rfl)
      · split
        · exact Or.inr (Or.inl rfl)
        · split
          · exact Or.inr (Or.inr rfl)
          · exact Or.inr (Or.inr rfl)

theorem runAutopilotStep_slept (cfg : AutopilotConfig) (f : Faults)
    (s : Storage) : (runAutopilotStep cfg f s).slept = true := by
  unfold runAutopilotStep
  split <;> rfl

theorem runAutopilotStep_storage (cfg : AutopilotConfig) (f : Faults)
    (s : Storage) :
    (runAutopilotStep cfg f s).storage = (iterBody cfg f s).storage := by
  unfold runAutopilotStep
  split <;> simp_all

theorem runAutopilotStep_sent (cfg : AutopilotConfig) (f : Faults)
    (s : Storage) :
    (runAutopilotStep cfg f s).sent = (iterBody cfg f s).sent := by
  unfold runAutopilotStep
  split <;> simp_all

theorem iterBody_scanFailure_storage (cfg : AutopilotConfig) (s : Storage) :
    (iterBody cfg scanFailure s).storage = s := by
  unfold iterBody
  split
  · unfold iterEnabled
    split
    · rfl
    · split <;> rfl
  · rfl

theorem iterBody_scanFailure_sent (cfg : AutopilotConfig) (s : Storage) :
    (iterBody cfg scanFailure s).sent = [] :=
  iterBody_sent_nil cfg scanFailure s

theorem runAutopilotLoop_sleeps (sched : List (AutopilotConfig × Faults)) :
    ∀ s : Storage, (runAutopilotLoop s sched).sleeps = sched.length := by
  induction sched with
  | nil => intro s; rfl
  | cons p rest ih =>
    intro s
    cases p with
    | mk cfg f =>
      simp only [runAutopilotLoop, runAutopilotStep_slept, if_true,
        List.length_cons, ih]
      omega

/-! ### Claim theorems -/

/-- C1: one autopilot iteration with `enabled=true`, a valid `manager_id`,
and exactly one unassigned pending task should end with the task assigned
to the manager, one audit log entry, and exactly one broadcast
notification.  The code commits the assignment and the log entry, but then
raises `NameError` (the module never imports `datetime`) while building the
notification payload, so zero notifications are broadcast: the first two
conjuncts of the claim hold and the third fails. -/
theorem autopilot_iteration_commits_but_never_broadcasts :
    (iterBody cfgA noFaults sA).storage.tasks = [taskA1] ∧
    (iterBody cfgA noFaults sA).storage.logs
      = [TaskLog.mk 1
          "Autopilot: Manager Alice self-assigned task 'Fix bug'" "action"] ∧
    (iterBody cfgA noFaults sA).sent = [] ∧
    (iterBody cfgA noFaults sA).err = some (PyErr.nameError "datetime") := by
  decide

/-- C6: the notification payload the claim describes is never produced: on
the input that reaches the broadcast phase (an unassigned pending task was
committed), evaluating the payload's `timestamp` field raises
`NameError: name 'datetime' is not defined`, so the autopilot broadcasts no
notification at all. -/
theorem autopilot_broadcast_payload_never_built :
    unassignedPending sA ≠ [] ∧
    Event.commit ∈ (iterBody cfgA noFaults sA).events ∧
    (iterBody cfgA noFaults sA).err = some (PyErr.nameError "datetime") ∧
    (iterBody cfgA noFaults sA).sent = [] := by
  decide

/-- C2 counterexample: the claim's converse ("the manager lookup and task
scan are performed whenever enabled=true and a manager_id is set") fails at
two concrete inputs.  With `enabled=true` and `manager_id=9` set but absent
from storage, the manager lookup is performed and the task scan is not (the
scan sits inside `if manager_entity:`).  With `enabled=true` and
`manager_id=0` set, Python truthiness short-circuits the config guard, so
not even the lookup is performed. -/
theorem autopilot_scan_skipped_counterexample :
    (cfgB.enabled = true ∧ cfgB.manager_id.isSome = true ∧
      Event.scan ∉ (iterBody cfgB noFaults sB).events) ∧
    (cfgZ.enabled = true ∧ cfgZ.manager_id.isSome = true ∧
      Event.lookup 0 ∉ (iterBody cfgZ noFaults sA).events ∧
      Event.scan ∉ (iterBody cfgZ noFaults sA).events) := by
  decide

/-- C4: within one iteration every broadcast is preceded by the commit: the
event trace of every iteration satisfies the commit-precedes-broadcast
discipline, and no notification is ever handed to the broadcaster without
a commit event in the same iteration (in the source the broadcast phase
sits after `session.commit()`; it moreover never sends because the payload
construction raises, so the set of broadcast notifications is empty). -/
theorem autopilot_commit_precedes_broadcast (cfg : AutopilotConfig)
    (f : Faults) (s : Storage) :
    commitPrecedes false (iterBody cfg f s).events = true ∧
    (iterBody cfg f s).sent = [] := by
  refine ⟨?_, iterBody_sent_nil cfg f s⟩
  unfold iterBody
  split
  · rcases iterEnabled_events_cases (cfg.manager_id.getD 0) f s
      with h | h | h <;> rw [h] <;> rfl
  · rfl

/-- C10: `POST /tasks/{task_id}/assign` and
`POST /tasks/{task_id}/self-assign` are behaviorally equivalent: on every
storage state and every pair of ids they return the same result (including
the same 404 errors) and leave the same storage. -/
theorem assign_and_self_assign_equivalent (s : Storage) (tid eid : Int) :
    assign_task s tid eid = self_assign_task s tid eid := rfl

/-- C9: `BroadcastToProject(n, P)` delivers `n` to every connection
registered under scope `P` at call time, and every delivery it makes is of
`n` to a connection registered under `P` — in particular no connection
registered only under another project scope or the global scope receives
anything. -/
theorem broadcast_to_project_scope_exact (r : Registry) (n : Notification)
    (pid : Int) :
    (∀ c, c ∈ r.scopeConns pid → (c, n) ∈ broadcast_to_project r n pid) ∧
    (∀ c m, (c, m) ∈ broadcast_to_project r n pid →
      m = n ∧ c ∈ r.scopeConns pid) ∧
    (∀ c, c ∉ r.scopeConns pid →
      ∀ m, (c, m) ∉ broadcast_to_project r n pid) := by
  unfold broadcast_to_project
  refine ⟨fun c hc => List.mem_map_of_mem _ hc,
    fun c m hm => ?_, fun c hc m hm => ?_⟩
  · simp only [List.mem_map, Prod.mk.injEq] at hm
    rcases hm with ⟨d, hd, rfl, rfl⟩
    exact ⟨rfl, hd⟩
  · simp only [List.mem_map, Prod.mk.injEq] at hm
    rcases hm with ⟨d, hd, rfl, rfl⟩
    exact hc hd

/-- Witness for C9 at a concrete registry: connection 10 (scope 1) receives
the broadcast to project 1; connection 20 (scope 2) and connection 30
(global) do not. -/
theorem broadcast_to_project_scope_exact_witness :
    (10 ∈ regEx.scopeConns 1
      ∧ (10, notifEx) ∈ broadcast_to_project regEx notifEx 1) ∧
    (20 ∉ regEx.scopeConns 1
      ∧ ∀ m, (20, m) ∉ broadcast_to_project regEx notifEx 1) ∧
    (30 ∉ regEx.scopeConns 1
      ∧ ∀ m, (30, m) ∉ broadcast_to_project regEx notifEx 1) :=
  ⟨⟨by decide,
      (broadcast_to_project_scope_exact regEx notifEx 1).1 10 (by decide)⟩,
    ⟨by decide,
      (broadcast_to_project_scope_exact regEx notifEx 1).2.2 20 (by decide)⟩,
    ⟨by decide,
      (broadcast_to_project_scope_exact regEx notifEx 1).2.2 30 (by decide)⟩⟩

/-- C3: the loop's error handling: every iteration ends in a sleep whatever
happens, a run over any schedule of configurations and injected failures
performs exactly one sleep per iteration (no exception ends the loop), and
a storage failure raised during the pending-task scan of one iteration
leaves storage untouched and does not affect the iterations that follow —
they produce the same storage and the same notifications as if the failed
iteration had not existed, at the cost of one extra sleep. -/
theorem autopilot_loop_never_crashes (cfg : AutopilotConfig) (f : Faults)
    (s : Storage) (rest sched : List (AutopilotConfig × Faults)) :
    (runAutopilotStep cfg f s).slept = true ∧
    (runAutopilotLoop s sched).sleeps = sched.length ∧
    (runAutopilotLoop s ((cfg, scanFailure) :: rest)).storage
      = (runAutopilotLoop s rest).storage ∧
    (runAutopilotLoop s ((cfg, scanFailure) :: rest)).sent
      = (runAutopilotLoop s rest).sent ∧
    (runAutopilotLoop s ((cfg, scanFailure) :: rest)).sleeps
      = (runAutopilotLoop s rest).sleeps + 1 := by
  refine ⟨runAutopilotStep_slept cfg f s, runAutopilotLoop_sleeps sched s,
    ?_, ?_, ?_⟩
  · simp only [runAutopilotLoop, runAutopilotStep_storage,
      iterBody_scanFailure_storage]
  · simp only [runAutopilotLoop, runAutopilotStep_sent,
      iterBody_scanFailure_sent, runAutopilotStep_storage,
      iterBody_scanFailure_storage, List.nil_append]
  · simp only [runAutopilotLoop_sleeps, List.length_cons]

/-- C2 (amended): the no-op fast paths perform zero storage writes and
zero broadcasts and still reach the sleep; conversely, whenever
`enabled=true` and `manager_id` is set to a nonzero value the manager
lookup is performed, and the task scan is performed exactly when that
lookup finds the entity — when the lookup returns absent the scan is
skipped (and the iteration writes and broadcasts nothing), when the lookup
itself raises the scan is likewise skipped, and when it finds the entity
the scan runs.  (The original converse fails: with the manager entity
absent the scan is skipped, and Python truthiness treats `manager_id = 0`
as unset, skipping even the lookup.) -/
theorem autopilot_noop_fast_path (cfg : AutopilotConfig) (f : Faults)
    (s : Storage) :
    (cfg.enabled = false ∨ cfg.manager_id = none →
      (iterBody cfg f s).storage = s ∧ (iterBody cfg f s).sent = [] ∧
      (runAutopilotStep cfg f s).slept = true) ∧
    (cfg.enabled = true → managerIdTruthy cfg.manager_id = true →
      Event.lookup (cfg.manager_id.getD 0) ∈ (iterBody cfg f s).events) ∧
    (cfg.enabled = true → managerIdTruthy cfg.manager_id = true →
      f.failGetEntity = false →
      getEntity s (cfg.manager_id.getD 0) = none →
      (iterBody cfg f s).storage = s ∧ (iterBody cfg f s).sent = [] ∧
      Event.scan ∉ (iterBody cfg f s).events) ∧
    (cfg.enabled = true → managerIdTruthy cfg.manager_id = true →
      f.failGetEntity = true →
      Event.scan ∉ (iterBody cfg f s).events) ∧
    (∀ mgr : Entity, cfg.enabled = true →
      managerIdTruthy cfg.manager_id = true → f.failGetEntity = false →
      getEntity s (cfg.manager_id.getD 0) = some mgr →
      Event.scan ∈ (iterBody cfg f s).events) := by
  refine ⟨?_, ?_, ?_, ?_, ?_⟩
  · intro h
    have hguard : (cfg.enabled && managerIdTruthy cfg.manager_id) = false := by
      rcases h with h | h <;> simp [h, managerIdTruthy]
    refine ⟨?_, ?_, runAutopilotStep_slept cfg f s⟩ <;>
      simp [iterBody, hguard]
  · intro he ht
    have hguard : (cfg.enabled && managerIdTruthy cfg.manager_id) = true := by
      rw [he, ht]; rfl
    unfold iterBody
    rw [hguard]
    exact iterEnabled_lookup_mem _ f s
  · intro he ht hf hnone
    have hguard : (cfg.enabled && managerIdTruthy cfg.manager_id) = true := by
      rw [he, ht]; rfl
    unfold iterBody
    rw [hguard, iterEnabled_absent _ f s hf hnone]
    refine ⟨rfl, rfl, ?_⟩
    simp
  · intro he ht hf
    have hguard : (cfg.enabled && managerIdTruthy cfg.manager_id) = true := by
      rw [he, ht]; rfl
    unfold iterBody
    rw [hguard]
    unfold iterEnabled
    rw [hf]
    simp
  · intro mgr he ht hf hsome
    have hguard : (cfg.enabled && managerIdTruthy cfg.manager_id) = true := by
      rw [he, ht]; rfl
    unfold iterBody
    rw [hguard]
    exact iterEnabled_scan_mem _ f s hf mgr hsome

/-- Witness for C2 (amended) at concrete inputs: a disabled configuration
touches nothing and sleeps; an enabled one with manager id 1 present in
storage performs the lookup and the scan; an enabled one with manager id 9
absent from storage performs no write, no broadcast and no scan; one whose
manager query raises performs no scan either. -/
theorem autopilot_noop_fast_path_witness :
    ((iterBody ⟨false, some 3⟩ noFaults sA).storage = sA ∧
      (iterBody ⟨false, some 3⟩ noFaults sA).sent = [] ∧
      (runAutopilotStep ⟨false, some 3⟩ noFaults sA).slept = true) ∧
    Event.lookup 1 ∈ (iterBody cfgA noFaults sA).events ∧
    ((iterBody cfgB noFaults sB).storage = sB ∧
      (iterBody cfgB noFaults sB).sent = [] ∧
      Event.scan ∉ (iterBody cfgB noFaults sB).events) ∧
    Event.scan ∉ (iterBody cfgA ⟨true, false, false⟩ sA).events ∧
    Event.scan ∈ (iterBody cfgA noFaults sA).events :=
  ⟨(autopilot_noop_fast_path ⟨false, some 3⟩ noFaults sA).1 (Or.inl rfl),
    (autopilot_noop_fast_path cfgA noFaults sA).2.1 rfl (by decide),
    (autopilot_noop_fast_path cfgB noFaults sB).2.2.1 rfl (by decide) rfl
      (by decide),
    (autopilot_noop_fast_path cfgA ⟨true, false, false⟩ sA).2.2.2.1 rfl
      (by decide) rfl,
    (autopilot_noop_fast_path cfgA noFaults sA).2.2.2.2 entA rfl (by decide)
      rfl (by decide)⟩

theorem autopilotAssign_id (mid : Int) (t : Task) :
    (autopilotAssign mid t).id = t.id := by
  unfold autopilotAssign
  split <;> rfl

theorem autopilotAssign_of_nonempty (mid : Int) (t : Task)
    (h : t.assignees ≠ []) : autopilotAssign mid t = t := by
  have hb : t.assignees.isEmpty = false := by
    cases hx : t.assignees.isEmpty with
    | false => rfl
    | true => exact absurd (List.isEmpty_iff.mp hx) h
  have hc : (t.status == TaskStatus.pending && t.assignees.isEmpty)
      = false := by
    rw [hb, Bool.and_false]
  unfold autopilotAssign
  rw [hc]
  rfl

/-- C5: a pending task that already has an assignee is left entirely
untouched by an iteration: the task value survives unchanged (and is still
the unique task with its id), no audit log entry is created for it, and no
notification mentioning it is broadcast. -/
theorem assigned_pending_task_untouched (cfg : AutopilotConfig) (f : Faults)
    (s : Storage) (t : Task) (hmem : t ∈ s.tasks)
    (hp : t.status = TaskStatus.pending) (hne : t.assignees ≠ [])
    (hids : (s.tasks.map Task.id).Nodup) :
    t ∈ (iterBody cfg f s).storage.tasks ∧
    (∀ u ∈ (iterBody cfg f s).storage.tasks, u.id = t.id → u = t) ∧
    (∀ l ∈ (iterBody cfg f s).storage.logs, l ∈ s.logs ∨ l.task_id ≠ t.id) ∧
    (∀ n ∈ (iterBody cfg f s).sent, n.payload.task_id ≠ t.id) := by
  have hinj : ∀ u ∈ s.tasks, u.id = t.id → u = t := fun u hu he =>
    List.inj_on_of_nodup_map hids hu hmem he
  have hsentnil := iterBody_sent_nil cfg f s
  rcases iterBody_storage_cases cfg f s with hst | ⟨mgr, hg, hst⟩
  · rw [hst]
    refine ⟨hmem, hinj, fun l hl => Or.inl hl, ?_⟩
    intro n hn
    rw [hsentnil] at hn
    cases hn
  · rw [hst]
    have htEq : autopilotAssign mgr.id t = t :=
      autopilotAssign_of_nonempty _ _ hne
    refine ⟨?_, ?_, ?_, ?_⟩
    · show t ∈ s.tasks.map (autopilotAssign mgr.id)
      exact htEq ▸ List.mem_map_of_mem _ hmem
    · intro u hu he
      rcases List.mem_map.mp hu with ⟨v, hv, rfl⟩
      have hvid : v.id = t.id := by
        rw [← autopilotAssign_id mgr.id v]; exact he
      have hvt : v = t := hinj v hv hvid
      subst hvt
      exact htEq
    · intro l hl
      rcases List.mem_append.mp hl with h | h
      · exact Or.inl h
      · rcases List.mem_map.mp h with ⟨v, hv, rfl⟩
        refine Or.inr ?_
        show v.id ≠ t.id
        intro hvid
        have hvmem : v ∈ s.tasks :=
          (List.mem_filter.mp (List.mem_filter.mp hv).1).1
        have hvempty : v.assignees.isEmpty = true :=
          (List.mem_filter.mp hv).2
        have hvt : v = t := hinj v hvmem hvid
        subst hvt
        exact hne (List.isEmpty_iff.mp hvempty)
    · intro n hn
      rw [hsentnil] at hn
      cases hn

/-- Witness for C5: in a store holding one pending task that already has
assignee 5, an enabled iteration leaves that task present and unchanged. -/
theorem assigned_pending_task_untouched_witness :
    taskC ∈ sC.tasks ∧ taskC.status = TaskStatus.pending ∧
    taskC.assignees ≠ [] ∧ (sC.tasks.map Task.id).Nodup ∧
    taskC ∈ (iterBody cfgA noFaults sC).storage.tasks :=
  ⟨by decide, by decide, by decide, by decide,
    (assigned_pending_task_untouched cfgA noFaults sC taskC (by decide)
      (by decide) (by decide) (by decide)).1⟩

theorem find?_map_update (l : List Task) (tid : Int) (u' : Task)
    (hid : (u'.id == tid) = true) :
    ∀ u : Task, l.find? (fun v => v.id == tid) = some u →
      (l.map (fun v => if v.id == tid then u' else v)).find?
        (fun v => v.id == tid) = some u' := by
  induction l with
  | nil => intro u h; cases h
  | cons a l ih =>
    intro u h
    simp only [List.map_cons]
    by_cases ha : (a.id == tid) = true
    · rw [if_pos ha]
      exact @List.find?_cons_of_pos Task (fun v => v.id == tid) u' _ hid
    · have h' : l.find? (fun v => v.id == tid) = some u := by
        rwa [@List.find?_cons_of_neg Task (fun v => v.id == tid) a _ ha] at h
      rw [if_neg ha,
        @List.find?_cons_of_neg Task (fun v => v.id == tid) a _ ha]
      exact ih u h'

theorem unassignedPending_commit (mgr : Entity) (s : Storage) :
    unassignedPending (commitAutopilot mgr s) = [] := by
  unfold unassignedPending pendingTasks commitAutopilot
  rw [List.filter_eq_nil_iff]
  intro a ha
  rcases List.mem_filter.mp ha with ⟨hmem, hpend⟩
  rcases List.mem_map.mp hmem with ⟨v, hv, rfl⟩
  cases hcase : (v.status == TaskStatus.pending && v.assignees.isEmpty) with
  | true =>
    have hva : autopilotAssign mgr.id v
        = { v with assignees := v.assignees ++ [mgr.id] } := by
      unfold autopilotAssign
      rw [hcase]
      rfl
    rw [hva]
    simp [List.isEmpty_iff]
  | false =>
    have hva : autopilotAssign mgr.id v = v := by
      unfold autopilotAssign
      rw [hcase]
      rfl
    rw [hva] at hpend ⊢
    simp only [hpend, Bool.true_and] at hcase
    simp [hcase]

/-- C7: assignment is idempotent.  If `POST /tasks/{tid}/assign` for entity
`eid` succeeded and produced storage `s₂` and response task `t`, performing
it again returns the identical response and leaves `s₂` unchanged (set
semantics of the assignee collection); and an autopilot iteration applied
to the storage an autopilot iteration left behind changes nothing — in
particular a task assigned to the manager in one round gains no duplicate
assignee and no duplicate audit log entry in the next. -/
theorem assignment_idempotent (s s₂ : Storage) (t : Task) (tid eid : Int)
    (h : assign_task s tid eid = Except.ok (s₂, t))
    (cfg : AutopilotConfig) (s₀ : Storage) :
    assign_task s₂ tid eid = Except.ok (s₂, t) ∧
    (iterBody cfg noFaults ((iterBody cfg noFaults s₀).storage)).storage
      = (iterBody cfg noFaults s₀).storage := by
  constructor
  · unfold assign_task at h
    cases htask : getTask s tid with
    | none => rw [htask] at h; cases h
    | some task =>
      rw [htask] at h
      cases hent : getEntity s eid with
      | none => rw [hent] at h; cases h
      | some entity =>
        rw [hent] at h
        simp only [] at h
        by_cases hmem : entity.id ∈ task.assignees
        · rw [if_pos hmem] at h
          injection h with h'
          obtain ⟨h1, h2⟩ := Prod.mk.inj h'
          subst h1
          subst h2
          unfold assign_task
          rw [htask, hent]
          simp only []
          rw [if_pos hmem]
        · rw [if_neg hmem] at h
          injection h with h'
          obtain ⟨h1, h2⟩ := Prod.mk.inj h'
          subst h1
          subst h2
          have hid : (({ task with
              assignees := task.assignees ++ [entity.id] } : Task).id == tid)
              = true :=
            @List.find?_some Task (fun v => v.id == tid) task s.tasks htask
          have hfound : getTask
              { s with tasks := s.tasks.map (fun v =>
                  if v.id == tid then
                    { task with assignees := task.assignees ++ [entity.id] }
                  else v) } tid
              = some { task with
                  assignees := task.assignees ++ [entity.id] } :=
            find?_map_update s.tasks tid _ hid task htask
          have hent2 : getEntity
              { s with tasks := s.tasks.map (fun v =>
                  if v.id == tid then
                    { task with assignees := task.assignees ++ [entity.id] }
                  else v) } eid = some entity := hent
          have hmem2 : entity.id ∈ ({ task with
              assignees := task.assignees ++ [entity.id] } : Task).assignees :=
            List.mem_append_right _ (List.mem_singleton_self _)
          unfold assign_task
          rw [hfound, hent2]
          simp only []
          rw [if_pos hmem2]
  · rcases iterBody_storage_cases cfg noFaults s₀ with hst | ⟨mgr, hg, hst⟩
    · rw [hst]
      exact hst
    · rw [hst]
      unfold iterBody
      split
      · have hg2 : getEntity (commitAutopilot mgr s₀)
            (cfg.manager_id.getD 0) = some mgr := hg
        unfold iterEnabled
        rw [hg2, unassignedPending_commit]
        rfl
      · rfl

/-- Witness for C7: assigning entity 1 to task 1 in `sA` yields `sA1`;
repeating the call returns the identical result and leaves `sA1` as is. -/
theorem assignment_idempotent_witness :
    assign_task sA 1 1 = Except.ok (sA1, taskA1) ∧
    assign_task sA1 1 1 = Except.ok (sA1, taskA1) :=
  ⟨by decide,
    (assignment_idempotent sA sA1 taskA1 1 1 (by decide) cfgA sA).1⟩

theorem echo_filterMap (frames : List String) (tl : List WsEvent)
    (h : tl.filterMap echoMsg = []) :
    ((frames.map (fun d => WsEvent.send "echo" d)) ++ tl).filterMap echoMsg
      = frames := by
  induction frames with
  | nil => simpa using h
  | cons a l ih =>
    simp only [List.map_cons, List.cons_append]
    rw [List.filterMap_cons_some
      (show echoMsg (WsEvent.send "echo" a) = some a by simp [echoMsg]), ih]

theorem connection_filterMap (frames : List String) (tl : List WsEvent)
    (h : tl.filterMap connectionMsg = []) :
    ((frames.map (fun d => WsEvent.send "echo" d)) ++ tl).filterMap
      connectionMsg = [] := by
  induction frames with
  | nil => simpa using h
  | cons a l ih =>
    simp only [List.map_cons, List.cons_append]
    rw [List.filterMap_cons_none (by simp [connectionMsg]), ih]

theorem trace_getLast (e₁ e₂ : WsEvent) (mid : List WsEvent) (d : WsEvent) :
    (e₁ :: e₂ :: (mid ++ [d])).getLast? = some d := by
  rw [show e₁ :: e₂ :: (mid ++ [d]) = (e₁ :: e₂ :: mid) ++ [d] from by simp]
  exact List.getLast?_concat _

/-- C8: each websocket handler first registers its connection, sends
exactly one `connection` notification whose message names the scope, then
sends exactly one `echo` per received inbound frame carrying the frame
verbatim and in order, and — whether the transport closed or the receive
loop raised — ends by unregistering the connection from its scope. -/
theorem websocket_handlers_greet_echo_unregister (pid : Int)
    (frames : List String) (ending : SessionEnd) :
    (websocket_project_updates pid frames ending).head?
      = some (WsEvent.connect (some pid)) ∧
    (websocket_project_updates pid frames ending).filterMap connectionMsg
      = ["Connected to project " ++ toString pid] ∧
    (websocket_project_updates pid frames ending).filterMap echoMsg
      = frames ∧
    (websocket_project_updates pid frames ending).getLast?
      = some (WsEvent.disconnect (some pid)) ∧
    (websocket_global_updates frames ending).head?
      = some (WsEvent.connect none) ∧
    (websocket_global_updates frames ending).filterMap connectionMsg
      = ["Connected to global updates"] ∧
    (websocket_global_updates frames ending).filterMap echoMsg = frames ∧
    (websocket_global_updates frames ending).getLast?
      = some (WsEvent.disconnect none) := by
  have hce : ∀ sc : Option Int,
      (wsEnding sc ending).filterMap connectionMsg = [] := by
    intro sc; cases ending <;> rfl
  have hee : ∀ sc : Option Int,
      (wsEnding sc ending).filterMap echoMsg = [] := by
    intro sc; cases ending <;> rfl
  refine ⟨rfl, ?_, ?_, ?_, rfl, ?_, ?_, ?_⟩
  · unfold websocket_project_updates
    rw [List.filterMap_cons_none (by simp [connectionMsg]),
      List.filterMap_cons_some
        (show connectionMsg (WsEvent.send "connection"
            ("Connected to project " ++ toString pid))
          = some ("Connected to project " ++ toString pid)
          by simp [connectionMsg]),
      connection_filterMap _ _ (hce _)]
  · unfold websocket_project_updates
    rw [List.filterMap_cons_none (by simp [echoMsg]),
      List.filterMap_cons_none (by simp [echoMsg]),
      echo_filterMap _ _ (hee _)]
  · unfold websocket_project_updates
    cases ending <;> exact trace_getLast _ _ _ _
  · unfold websocket_global_updates
    rw [List.filterMap_cons_none (by simp [connectionMsg]),
      List.filterMap_cons_some
        (show connectionMsg (WsEvent.send "connection"
            "Connected to global updates")
          = some "Connected to global updates" by simp [connectionMsg]),
      connection_filterMap _ _ (hce _)]
  · unfold websocket_global_updates
    rw [List.filterMap_cons_none (by simp [echoMsg]),
      List.filterMap_cons_none (by simp [echoMsg]),
      echo_filterMap _ _ (hee _)]
  · unfold websocket_global_updates
    cases ending <;> exact trace_getLast _ _ _ _

end AgentKanban
